import Mathlib

/-!
Shallow embedding of `src/app.py` (a Streamlit financial risk dashboard) and
proofs about its analytics, parsing, authentication and caching behaviour.

Conventions of the embedding:
* pandas/NumPy floating-point cells are modelled as `Option ℚ`: `none` is NaN
  (an absent value); every comparison against `none` is `false`, matching
  IEEE-754 NaN comparison semantics used by the Python code.
* a pandas time series is a list of (date, value) pairs, dates as `ℕ`,
  in index order.
* Streamlit session state, secrets and the data provider are passed
  explicitly as arguments.
-/

/-- NaN-aware strict less-than on an optional cell against a constant:
`v < c` in Python is `False` whenever `v` is NaN. -/
def nanLt (v : Option ℚ) (c : ℚ) : Bool :=
  match v with
  | none => false
  | some x => decide (x < c)

/-- NaN-aware strict greater-than on an optional cell against a constant:
`v > c` in Python is `False` whenever `v` is NaN. -/
def nanGt (v : Option ℚ) (c : ℚ) : Bool :=
  match v with
  | none => false
  | some x => decide (c < x)

/-- The fields of the most recent Master-Dataset row read by
`assess_macro_risk` (`latest = df.iloc[-1]`). -/
structure LatestRow where
  YIELD_CURVE : Option ℚ
  DGS10 : Option ℚ
  HY_SPREAD : Option ℚ
  RATE_GAP : Option ℚ
deriving DecidableEq, Repr

/-- Input of `assess_macro_risk`: the latest row plus, for each of the three
delinquency columns, whether the column exists in the DataFrame and its full
history (cells may be NaN). -/
structure RiskInput where
  latest : LatestRow
  hasCC : Bool
  CC_DELINQ : List (Option ℚ)
  hasCRE : Bool
  CRE_DELINQ_ALL : List (Option ℚ)
  hasAUTO : Bool
  AUTO_DELINQ : List (Option ℚ)
deriving DecidableEq, Repr

/-- `df[col].dropna()` followed by `.iloc[-1]` when non-empty: the last
non-NaN value of a column, if any. -/
def lastValid (l : List (Option ℚ)) : Option ℚ :=
  (l.filterMap id).getLast?

/-- Rule 1 of `assess_macro_risk` (yield curve): `< 0 → +3`, else `< 0.3 → +1`. -/
def rule_yield_curve (latest : LatestRow) : ℕ × List String :=
  if nanLt latest.YIELD_CURVE 0 then
    (3, ["🔴 수익률 곡선 역전 (경기침체 전조)"])
  else if nanLt latest.YIELD_CURVE 0.3 then
    (1, ["⚠️ 수익률 곡선 평탄화 (역전 임박)"])
  else (0, [])

/-- Rule 2 of `assess_macro_risk` (10-year yield): `> 4.5 → +2`, else `> 4.0 → +1`. -/
def rule_dgs10 (latest : LatestRow) : ℕ × List String :=
  if nanGt latest.DGS10 4.5 then
    (2, ["⚠️ 10년물 금리 고점 영역"])
  else if nanGt latest.DGS10 4.0 then
    (1, ["💡 10년물 금리 상승 추세"])
  else (0, [])

/-- Rule 3 of `assess_macro_risk` (high-yield spread): `> 5.0 → +3`, else `> 4.5 → +2`. -/
def rule_hy_spread (latest : LatestRow) : ℕ × List String :=
  if nanGt latest.HY_SPREAD 5.0 then
    (3, ["🔴 하이일드 스프레드 급등"])
  else if nanGt latest.HY_SPREAD 4.5 then
    (2, ["⚠️ 하이일드 스프레드 확대"])
  else (0, [])

/-- Rule 4 of `assess_macro_risk` (rate gap): `> 1.0 → +2`, else `> 0.5 → +1`. -/
def rule_rate_gap (latest : LatestRow) : ℕ × List String :=
  if nanGt latest.RATE_GAP 1.0 then
    (2, ["💧 금리 괴리 과도 확대"])
  else if nanGt latest.RATE_GAP 0.5 then
    (1, ["💧 금리 괴리 확대"])
  else (0, [])

/-- Rule 5 of `assess_macro_risk` (credit-card delinquency, latest non-NaN value of
the column when the column exists and has data): `> 5.0 → +3`, else `> 3.5 → +2`. -/
def rule_cc_delinq (hasCol : Bool) (col : List (Option ℚ)) : ℕ × List String :=
  if hasCol then
    match lastValid col with
    | some v =>
      if v > 5.0 then (3, ["🔴 신용카드 연체율 >5%"])
      else if v > 3.5 then (2, ["🪳 신용카드 연체율 급등"])
      else (0, [])
    | none => (0, [])
  else (0, [])

/-- Rule 6 of `assess_macro_risk` (commercial-real-estate delinquency):
`> 3.0 → +3`, else `> 2.0 → +2`. -/
def rule_cre_delinq (hasCol : Bool) (col : List (Option ℚ)) : ℕ × List String :=
  if hasCol then
    match lastValid col with
    | some v =>
      if v > 3.0 then (3, ["🔴 CRE 연체율 >3%"])
      else if v > 2.0 then (2, ["🏢 CRE 연체율 상승"])
      else (0, [])
    | none => (0, [])
  else (0, [])

/-- Rule 7 of `assess_macro_risk` (auto-loan delinquency):
`> 3.0 → +2`, else `> 2.5 → +1`. -/
def rule_auto_delinq (hasCol : Bool) (col : List (Option ℚ)) : ℕ × List String :=
  if hasCol then
    match lastValid col with
    | some v =>
      if v > 3.0 then (2, ["🚗 오토론 연체율 >3%"])
      else if v > 2.5 then (1, ["🚗 오토론 연체율 상승세"])
      else (0, [])
    | none => (0, [])
  else (0, [])

/-- Severity grading at the end of `assess_macro_risk`:
score `≥ 10 → CRITICAL/darkred`, `≥ 7 → HIGH/red`, `≥ 4 → MEDIUM/orange`,
else `LOW/green`. -/
def risk_level (risk_score : ℕ) : String × String :=
  if risk_score ≥ 10 then ("🔴 CRITICAL RISK", "darkred")
  else if risk_score ≥ 7 then ("🔴 HIGH RISK", "red")
  else if risk_score ≥ 4 then ("🟡 MEDIUM RISK", "orange")
  else ("🟢 LOW RISK", "green")

/-- Result record returned by `assess_macro_risk`. -/
structure RiskResult where
  score : ℕ
  level : String
  color : String
  warnings : List String
  latest : LatestRow
deriving DecidableEq, Repr

/-- Sequential accumulation of one additive rule: `risk_score += d` together
with `warnings_.append(...)`. -/
def ruleStep (acc : ℕ × List String) (r : ℕ × List String) : ℕ × List String :=
  (acc.1 + r.1, acc.2 ++ r.2)

/-- `assess_macro_risk(df)`: evaluates the seven additive threshold rules in
source order, starting from score 0 and an empty warning list, then grades
the total. -/
def assess_macro_risk (inp : RiskInput) : RiskResult :=
  let latest := inp.latest
  let acc :=
    ruleStep (ruleStep (ruleStep (ruleStep (ruleStep (ruleStep (ruleStep (0, [])
      (rule_yield_curve latest)) (rule_dgs10 latest)) (rule_hy_spread latest))
      (rule_rate_gap latest)) (rule_cc_delinq inp.hasCC inp.CC_DELINQ))
      (rule_cre_delinq inp.hasCRE inp.CRE_DELINQ_ALL))
      (rule_auto_delinq inp.hasAUTO inp.AUTO_DELINQ)
  { score := acc.1
    level := (risk_level acc.1).1
    color := (risk_level acc.1).2
    warnings := acc.2
    latest := latest }

/-- `determine_scenario(yield_curve, policy_spread)`: the 2×2 decision table
on `inverted = yield_curve < 0` and `easing_expected = policy_spread < 0`. -/
def determine_scenario (yield_curve policy_spread : ℚ) : ℕ :=
  let inverted : Bool := decide (yield_curve < 0)
  let easing_expected : Bool := decide (policy_spread < 0)
  if inverted && !easing_expected then 1
  else if inverted && easing_expected then 2
  else if !inverted && !easing_expected then 3
  else 4

/-- A pandas time series: (date, value) pairs in index order, values possibly
NaN. -/
abbrev Series := List (ℕ × Option ℚ)

/-- One step of the scan loop of `find_inversion_periods`. State is
(accumulated intervals, `in_inv`, `start`); a NaN value is skipped
(`continue`); a negative value while not inverted opens an interval at the
current date; a value `≥ 0` while inverted closes it at the current date. -/
def inv_step (st : List (ℕ × ℕ) × Bool × ℕ) (p : ℕ × Option ℚ) :
    List (ℕ × ℕ) × Bool × ℕ :=
  match p.2 with
  | none => st
  | some val =>
    if val < 0 ∧ st.2.1 = false then (st.1, true, p.1)
    else if 0 ≤ val ∧ st.2.1 = true then (st.1 ++ [(st.2.2, p.1)], false, st.2.2)
    else st

/-- `find_inversion_periods(yield_curve_series)`: scans the series with
`inv_step`; an inversion still open after the loop is closed at the last date
of the (whole) series, `yield_curve_series.index[-1]`. -/
def find_inversion_periods (s : Series) : List (ℕ × ℕ) :=
  let st := s.foldl inv_step ([], false, 0)
  if st.2.1 then
    match s.getLast? with
    | some p => st.1 ++ [(st.2.2, p.1)]
    | none => st.1
  else st.1

/-!  Master Dataset builder (`build_master_df`). -/

/-- The sixteen raw series keys of `series_dict` in `load_all_series`. -/
inductive SeriesName
  | DGS10 | DGS2 | T10Y2Y | HY_SPREAD | IG_SPREAD | FEDFUNDS | EFFR | WALCL
  | CC_DELINQ | CONS_DELINQ | AUTO_DELINQ | CRE_DELINQ_ALL | CRE_DELINQ_TOP100
  | CRE_DELINQ_SMALL | RE_DELINQ_ALL | CRE_LOAN_AMT
deriving DecidableEq, Repr

/-- The columns of the Master Dataset: the sixteen raw series plus the five
derived columns computed by `build_master_df`. -/
inductive ColName
  | raw (n : SeriesName)
  | YIELD_CURVE_DIRECT | YIELD_CURVE_CALC | YIELD_CURVE | RATE_GAP | POLICY_SPREAD
deriving DecidableEq, Repr

/-- `s.reindex(df.index, method='ffill')` evaluated at a target date `d`:
the value stored at the largest source date `≤ d` (possibly NaN itself),
or NaN when no source date precedes `d`.  Series are assumed indexed in
non-decreasing date order, as pandas requires for `method='ffill'`. -/
def reindex_ffill (s : Series) (d : ℕ) : Option ℚ :=
  ((s.filter (fun p => p.1 ≤ d)).getLast?).bind Prod.snd

/-- Exact-label lookup: the value a series holds at date `d` itself
(used for the base `DGS10` column, whose index is the table index). -/
def atDate (s : Series) (d : ℕ) : Option ℚ :=
  match s.find? (fun p => p.1 = d) with
  | some p => p.2
  | none => none

/-- NaN-propagating subtraction of two cells. -/
def osub (a b : Option ℚ) : Option ℚ :=
  match a, b with
  | some x, some y => some (x - y)
  | _, _ => none

/-- A raw column of the master table at date `d`: the `DGS10` column holds the
base series' own values; every other series is reindexed onto the base index
with forward fill. -/
def col_raw (S : SeriesName → Series) (n : SeriesName) (d : ℕ) : Option ℚ :=
  if n = SeriesName.DGS10 then atDate (S SeriesName.DGS10) d
  else reindex_ffill (S n) d

/-- The cell of `build_master_df(series_dict)` in column `c` at table date `d`:
raw columns by `col_raw`; `YIELD_CURVE_DIRECT` is `T10Y2Y` reindexed;
`YIELD_CURVE_CALC = DGS10 - DGS2`; `YIELD_CURVE` coalesces the direct value
with the calculated fallback (`fillna`); `RATE_GAP = DGS10 - FEDFUNDS`;
`POLICY_SPREAD = DGS2 - EFFR`. -/
def master_col (S : SeriesName → Series) : ColName → ℕ → Option ℚ
  | .raw n, d => col_raw S n d
  | .YIELD_CURVE_DIRECT, d => reindex_ffill (S SeriesName.T10Y2Y) d
  | .YIELD_CURVE_CALC, d => osub (col_raw S SeriesName.DGS10 d) (col_raw S SeriesName.DGS2 d)
  | .YIELD_CURVE, d =>
      (reindex_ffill (S SeriesName.T10Y2Y) d).orElse
        (fun _ => osub (col_raw S SeriesName.DGS10 d) (col_raw S SeriesName.DGS2 d))
  | .RATE_GAP, d => osub (col_raw S SeriesName.DGS10 d) (col_raw S SeriesName.FEDFUNDS d)
  | .POLICY_SPREAD, d => osub (col_raw S SeriesName.DGS2 d) (col_raw S SeriesName.EFFR d)

/-- The final row index of `build_master_df`: the base `DGS10` series' dates,
with rows whose `DGS10` value is NaN dropped (`dropna(subset=['DGS10'])`). -/
def master_index (S : SeriesName → Series) : List ℕ :=
  ((S SeriesName.DGS10).filter (fun p => p.2.isSome)).map Prod.fst

/-- The master table as the spec describes it before the coalescing fill is
applied: identical to `master_col` except that the `YIELD_CURVE` column holds
only the directly-reported spread.  Used to state that the fill touches no
other column. -/
def master_col_nofill (S : SeriesName → Series) : ColName → ℕ → Option ℚ
  | .YIELD_CURVE, d => reindex_ffill (S SeriesName.T10Y2Y) d
  | c, d => master_col S c d

/-!  Data acquisition (`fetch_series_with_ffill`, `load_all_series`). -/

/-- `data.sort_index()`: stable sort of the observations by date. -/
def sort_index (s : Series) : Series :=
  s.insertionSort (fun a b => a.1 ≤ b.1)

/-- `.ffill()` along a series, carrying the last non-NaN value seen so far. -/
def ffill_carry (carry : Option ℚ) : Series → Series
  | [] => []
  | (d, v) :: rest =>
    match v with
    | some x => (d, some x) :: ffill_carry (some x) rest
    | none => (d, carry) :: ffill_carry carry rest

/-- `data.sort_index().ffill()`. -/
def sort_ffill (s : Series) : Series :=
  ffill_carry none (sort_index s)

/-- The warning emitted on a fetch failure:
`f"⚠️ \x7bname or series_id\x7d 수집 실패: \x7be\x7d"`. -/
def fetch_warning (series_id name e : String) : String :=
  "⚠️ " ++ (if name = "" then series_id else name) ++ " 수집 실패: " ++ e

/-- `fetch_series_with_ffill(series_id, start_date, name)`.  The external
provider call `fred.get_series(...)` is passed in as its outcome: either an
exception message or the raw observations.  Returns the resulting series
together with the list of Streamlit warnings emitted.  On any exception the
function returns an empty series and one warning naming the series; on an
empty result it returns an empty series; otherwise the observations sorted by
date and forward-filled. -/
def fetch_series_with_ffill (series_id name : String)
    (fetched : Except String Series) : Series × List String :=
  match fetched with
  | .error e => ([], [fetch_warning series_id name e])
  | .ok data =>
    if data.length > 0 then (sort_ffill data, [])
    else ([], [])

/-- The metadata table of `load_all_series`: for each dict key, the FRED
series identifier and the display name passed to `fetch_series_with_ffill`. -/
def series_spec (n : SeriesName) : String × String :=
  match n with
  | .DGS10 => ("DGS10", "10년물 국채")
  | .DGS2 => ("DGS2", "2년물 국채")
  | .T10Y2Y => ("T10Y2Y", "장단기 금리차")
  | .HY_SPREAD => ("BAMLH0A0HYM2", "하이일드 스프레드")
  | .IG_SPREAD => ("BAMLC0A0CM", "투자등급 스프레드")
  | .FEDFUNDS => ("FEDFUNDS", "연준 기준금리")
  | .EFFR => ("EFFR", "유효 연방기금금리")
  | .WALCL => ("WALCL", "연준 총자산")
  | .CC_DELINQ => ("DRCCLACBS", "신용카드 연체율")
  | .CONS_DELINQ => ("DRCLACBS", "소비자 대출 연체율")
  | .AUTO_DELINQ => ("DROCLACBS", "오토론 연체율")
  | .CRE_DELINQ_ALL => ("DRCRELEXFACBS", "CRE 연체율")
  | .CRE_DELINQ_TOP100 => ("DRCRELEXFT100S", "CRE 연체율(Top100)")
  | .CRE_DELINQ_SMALL => ("DRCRELEXFOBS", "CRE 연체율(기타)")
  | .RE_DELINQ_ALL => ("DRSREACBS", "부동산 연체율")
  | .CRE_LOAN_AMT => ("CREACBM027NBOG", "CRE 대출 총액")

/-- `load_all_series(start_date)` without its cache decorator: fetches the
sixteen series in one batch through `fetch_series_with_ffill`.  The provider
is a function from (FRED identifier, start date) to a fetch outcome. -/
def load_all_series (provider : String → ℕ → Except String Series)
    (start_date : ℕ) : SeriesName → Series :=
  fun n =>
    (fetch_series_with_ffill (series_spec n).1 (series_spec n).2
      (provider (series_spec n).1 start_date)).1

/-- Modelled from the spec: the `@st.cache_data(ttl=3600)` decorator on
`load_all_series` is Streamlit library machinery not present in this
repository; per §4.4 and the §9 design note it is an explicit cache keyed by
the start date, storing (value, timestamp), with a 3600-second freshness
window.  A cache is a list of (key, value, fetch time) entries. -/
def cache_find (c : List (ℕ × α × ℕ)) (key now : ℕ) : Option α :=
  (c.find? (fun e => decide (e.1 = key) && decide (now < e.2.2 + 3600))).map
    (fun e => e.2.1)

/-- Modelled from the spec: one cached invocation at time `now` with key
`key`.  On a fresh cache entry for the key the stored value is returned and
the provider is not contacted; otherwise the underlying computation runs once
and is stored.  Returns (result, new cache, number of provider calls made). -/
def cached_call (compute : ℕ → α) (c : List (ℕ × α × ℕ)) (key now : ℕ) :
    α × List (ℕ × α × ℕ) × ℕ :=
  match cache_find c key now with
  | some v => (v, c, 0)
  | none => ((compute key), (key, compute key, now) :: c, 1)

/-!  Gemini section parsing (`extract_section`). -/

/-- Python text as a list of characters. -/
abbrev PyText := List Char

/-- `text.find(needle, start)` restricted to success: the least index
`i ≥ start` where `needle` occurs in `hay`, if any. -/
def find_from (hay needle : PyText) (start : ℕ) : Option ℕ :=
  (List.range (hay.length + 1)).find?
    (fun i => decide (start ≤ i) && needle.isPrefixOf (hay.drop i))

/-- Python's whitespace class used by `str.strip()`. -/
def py_space (c : Char) : Bool :=
  c = ' ' || c = '\t' || c = '\n' || c = '\r' || c = '\x0B' || c = '\x0C'

/-- `t.strip()`: remove leading and trailing whitespace. -/
def py_strip (t : PyText) : PyText :=
  ((t.dropWhile py_space).reverse.dropWhile py_space).reverse

/-- `t.replace(pat, "")` for a non-empty pattern, fuel-structured so that it
computes by kernel reduction: remove every non-overlapping occurrence,
scanning left to right.  Every step consumes at least one character, so fuel
equal to the text length never runs out. -/
def remove_all_fuel (pat : PyText) : ℕ → PyText → PyText
  | 0, t => t
  | _ + 1, [] => []
  | fuel + 1, c :: rest =>
    if pat.isPrefixOf (c :: rest) ∧ 0 < pat.length then
      remove_all_fuel pat fuel (rest.drop (pat.length - 1))
    else
      c :: remove_all_fuel pat fuel rest

/-- `t.replace(pat, "")`. -/
def remove_all (pat t : PyText) : PyText :=
  remove_all_fuel pat t.length t

/-- The code-fence delimiter. -/
def fence : PyText := '`' :: '`' :: ['`']

/-- The fixed follow-on markers of `extract_section`. -/
def next_sections : List PyText :=
  ["MARKET_STATUS:".data, "KEY_RISKS:".data, "STRATEGY:".data,
   "FULL_ANALYSIS:".data, fence]

/-- `extract_section(text, section_name)`: `None` when the marker is absent;
otherwise the slice from just after the first occurrence of the marker up to
the nearest following occurrence of any other fixed marker (or end of text),
stripped, with code-fence delimiters removed, and stripped again. -/
def extract_section (text section_name : PyText) : Option PyText :=
  match find_from text section_name 0 with
  | none => none
  | some i =>
    let start := i + section_name.length
    let stop := next_sections.foldl
      (fun e ns =>
        if ns = section_name then e
        else
          match find_from text ns start with
          | some pos => if pos < e then pos else e
          | none => e)
      text.length
    let sec := py_strip ((text.drop start).take (stop - start))
    some (py_strip (remove_all fence sec))

/-!  Authentication gate (`check_password`). -/

/-- The two inline login errors plus the generic catch-all error. -/
inductive AuthMsg
  | errWrongPassword
  | errNoUser
  | errGeneric
deriving DecidableEq, Repr

/-- Observable outcome of one `check_password` run: the returned boolean, the
session flag afterwards, the inline error shown (if any), whether `st.rerun()`
was triggered, and the credential store afterwards. -/
structure AuthOutcome where
  result : Bool
  session : Bool
  msg : Option AuthMsg
  rerun : Bool
  store : Option (List (String × String))
deriving DecidableEq, Repr

/-- Dictionary lookup in the `passwords` mapping. -/
def lookup_pw (ps : List (String × String)) (u : String) : Option String :=
  (ps.find? (fun p => p.1 = u)).map Prod.snd

/-- `check_password()`.  `secrets` is `st.secrets["passwords"]` when present;
`session` is `st.session_state['password_correct']`; `submission` is the
submitted (username, password) form data, or `none` when the form was not
submitted.  An already-authenticated session returns `true` immediately;
otherwise an unknown username (or absent mapping) shows the no-such-user
error, a wrong password shows the incorrect-password error, and a match sets
the session flag and reruns.  The credential store is never modified. -/
def check_password (secrets : Option (List (String × String)))
    (session : Bool) (submission : Option (String × String)) : AuthOutcome :=
  if session then
    { result := true, session := true, msg := none, rerun := false, store := secrets }
  else
    match submission with
    | none =>
      { result := false, session := false, msg := none, rerun := false, store := secrets }
    | some (username, password) =>
      match secrets with
      | some ps =>
        match lookup_pw ps username with
        | some correct =>
          if password = correct then
            { result := false, session := true, msg := none, rerun := true,
              store := some ps }
          else
            { result := false, session := false, msg := some AuthMsg.errWrongPassword,
              rerun := false, store := some ps }
        | none =>
          { result := false, session := false, msg := some AuthMsg.errNoUser,
            rerun := false, store := some ps }
      | none =>
        { result := false, session := false, msg := some AuthMsg.errNoUser,
          rerun := false, store := none }

/-- The latest row of the spec's risk-scoring test: YIELD_CURVE −0.1,
DGS10 4.6, HY_SPREAD 5.2, RATE_GAP 1.2, delinquency columns present but
holding no data. -/
def riskExampleInput : RiskInput :=
  { latest := { YIELD_CURVE := some (-0.1), DGS10 := some 4.6,
                HY_SPREAD := some 5.2, RATE_GAP := some 1.2 },
    hasCC := true, CC_DELINQ := [], hasCRE := true, CRE_DELINQ_ALL := [],
    hasAUTO := true, AUTO_DELINQ := [] }

/-- Invariant maintained by the inversion scan: the accumulated intervals
form a chronologically ordered chain of well-formed (start ≤ end) intervals,
every recorded date lies strictly below the bound `lb`, and while an
inversion is open all closed intervals end strictly before its start. -/
def InvState (lb : ℕ) (st : List (ℕ × ℕ) × Bool × ℕ) : Prop :=
  st.1.Chain' (fun a b => a.2 < b.1) ∧
  (∀ p ∈ st.1, p.1 ≤ p.2) ∧
  (st.2.1 = true → (∀ p ∈ st.1, p.2 < st.2.2) ∧ st.2.2 < lb) ∧
  (st.2.1 = false → ∀ p ∈ st.1, p.2 < lb)

/-- A three-series dict realising the spec's Master-Dataset test: the direct
10y−2y spread has exactly one absent value, on date 2, where both the
10-year and the 2-year yields are present; every other series is empty. -/
def exampleSeriesDict : SeriesName → Series :=
  fun n =>
    match n with
    | SeriesName.DGS10 => [(1, some 4), (2, some 4.5)]
    | SeriesName.DGS2 => [(1, some 3.8), (2, some 4.2)]
    | SeriesName.T10Y2Y => [(1, some 0.2), (2, none)]
    | _ => []

/-!  Theorems. -/

/-- Severity grading characterised exactly: each label/color pair is returned
iff the score lies in the corresponding band. -/
lemma risk_level_cases (n : ℕ) :
    (risk_level n = ("🔴 CRITICAL RISK", "darkred") ↔ 10 ≤ n) ∧
    (risk_level n = ("🔴 HIGH RISK", "red") ↔ 7 ≤ n ∧ n < 10) ∧
    (risk_level n = ("🟡 MEDIUM RISK", "orange") ↔ 4 ≤ n ∧ n < 7) ∧
    (risk_level n = ("🟢 LOW RISK", "green") ↔ n < 4) := by
  unfold risk_level
  split_ifs with h1 h2 h3 <;> refine ⟨?_, ?_, ?_, ?_⟩ <;> simp_all <;> omega

/-- The 2×2 decision table of `determine_scenario` characterised exactly. -/
lemma scenario_table (yc ps : ℚ) :
    (determine_scenario yc ps = 1 ↔ yc < 0 ∧ 0 ≤ ps) ∧
    (determine_scenario yc ps = 2 ↔ yc < 0 ∧ ps < 0) ∧
    (determine_scenario yc ps = 3 ↔ 0 ≤ yc ∧ 0 ≤ ps) ∧
    (determine_scenario yc ps = 4 ↔ 0 ≤ yc ∧ ps < 0) := by
  rcases lt_or_le yc 0 with hyc | hyc <;> rcases lt_or_le ps 0 with hps | hps <;>
    simp [determine_scenario, hyc, hps, hyc.not_lt, hps.not_lt, not_lt_of_le, le_of_lt]

/-- C1: `assess_macro_risk` accumulates the score as the sum of the seven
independent additive threshold rules evaluated in source order, and
concatenates their warnings in the same order; on the spec's example row
(YIELD_CURVE −0.1, DGS10 4.6, HY_SPREAD 5.2, RATE_GAP 1.2, no delinquency
data) the score is exactly 10 and exactly the four warnings of rules
curve, yield, spread, gap are emitted, in that order. -/
theorem C1_composite_risk_scoring :
    (∀ inp : RiskInput,
      (assess_macro_risk inp).score =
        (rule_yield_curve inp.latest).1 + (rule_dgs10 inp.latest).1 +
        (rule_hy_spread inp.latest).1 + (rule_rate_gap inp.latest).1 +
        (rule_cc_delinq inp.hasCC inp.CC_DELINQ).1 +
        (rule_cre_delinq inp.hasCRE inp.CRE_DELINQ_ALL).1 +
        (rule_auto_delinq inp.hasAUTO inp.AUTO_DELINQ).1 ∧
      (assess_macro_risk inp).warnings =
        (rule_yield_curve inp.latest).2 ++ (rule_dgs10 inp.latest).2 ++
        (rule_hy_spread inp.latest).2 ++ (rule_rate_gap inp.latest).2 ++
        (rule_cc_delinq inp.hasCC inp.CC_DELINQ).2 ++
        (rule_cre_delinq inp.hasCRE inp.CRE_DELINQ_ALL).2 ++
        (rule_auto_delinq inp.hasAUTO inp.AUTO_DELINQ).2) ∧
    (assess_macro_risk riskExampleInput).score = 10 ∧
    (assess_macro_risk riskExampleInput).warnings =
      ["🔴 수익률 곡선 역전 (경기침체 전조)", "⚠️ 10년물 금리 고점 영역",
       "🔴 하이일드 스프레드 급등", "💧 금리 괴리 과도 확대"] := by
  refine ⟨fun inp => ⟨?_, ?_⟩, ?_, ?_⟩
  · simp [assess_macro_risk, ruleStep]
  · simp [assess_macro_risk, ruleStep]
  · norm_num [assess_macro_risk, riskExampleInput, ruleStep, rule_yield_curve,
      rule_dgs10, rule_hy_spread, rule_rate_gap, rule_cc_delinq, rule_cre_delinq,
      rule_auto_delinq, nanLt, nanGt, lastValid]
  · norm_num [assess_macro_risk, riskExampleInput, ruleStep, rule_yield_curve,
      rule_dgs10, rule_hy_spread, rule_rate_gap, rule_cc_delinq, rule_cre_delinq,
      rule_auto_delinq, nanLt, nanGt, lastValid]

/-- C2: for every input, the severity label and color returned by
`assess_macro_risk` are CRITICAL/darkred iff the score is ≥ 10, HIGH/red iff
it is in [7, 10), MEDIUM/orange iff it is in [4, 7), and LOW/green iff it is
below 4. -/
theorem C2_severity_mapping (inp : RiskInput) :
    (((assess_macro_risk inp).level, (assess_macro_risk inp).color) =
        ("🔴 CRITICAL RISK", "darkred") ↔ 10 ≤ (assess_macro_risk inp).score) ∧
    (((assess_macro_risk inp).level, (assess_macro_risk inp).color) =
        ("🔴 HIGH RISK", "red") ↔
      7 ≤ (assess_macro_risk inp).score ∧ (assess_macro_risk inp).score < 10) ∧
    (((assess_macro_risk inp).level, (assess_macro_risk inp).color) =
        ("🟡 MEDIUM RISK", "orange") ↔
      4 ≤ (assess_macro_risk inp).score ∧ (assess_macro_risk inp).score < 7) ∧
    (((assess_macro_risk inp).level, (assess_macro_risk inp).color) =
        ("🟢 LOW RISK", "green") ↔ (assess_macro_risk inp).score < 4) := by
  have h : ((assess_macro_risk inp).level, (assess_macro_risk inp).color) =
      risk_level (assess_macro_risk inp).score := rfl
  rw [h]
  exact risk_level_cases _

/-- C3: `determine_scenario` realises the 2×2 truth table on
(curve inverted, easing expected) with strict-less-than boundaries; in
particular (−0.2, 0.3) ↦ 1, (0.4, −0.1) ↦ 4, and a curve of exactly 0 is
never classified as inverted (scenario is 3 or 4). -/
theorem C3_determine_scenario :
    (∀ yc ps : ℚ,
      (determine_scenario yc ps = 1 ↔ yc < 0 ∧ 0 ≤ ps) ∧
      (determine_scenario yc ps = 2 ↔ yc < 0 ∧ ps < 0) ∧
      (determine_scenario yc ps = 3 ↔ 0 ≤ yc ∧ 0 ≤ ps) ∧
      (determine_scenario yc ps = 4 ↔ 0 ≤ yc ∧ ps < 0)) ∧
    determine_scenario (-0.2) 0.3 = 1 ∧
    determine_scenario 0.4 (-0.1) = 4 ∧
    (∀ ps : ℚ, determine_scenario 0 ps = 3 ∨ determine_scenario 0 ps = 4) := by
  refine ⟨scenario_table, by norm_num [determine_scenario], by norm_num [determine_scenario], fun ps => ?_⟩
  rcases lt_or_le ps 0 with h | h
  · right
    exact ((scenario_table 0 ps).2.2.2).mpr ⟨le_refl 0, h⟩
  · left
    exact ((scenario_table 0 ps).2.2.1).mpr ⟨le_refl 0, h⟩

/-- C10: a NaN (absent) latest value makes every threshold comparison false,
so the corresponding rule of `assess_macro_risk` contributes zero score and
no warning; with all four latest fields absent the result reduces to the
delinquency rules alone. -/
theorem C10_nan_contributes_nothing :
    (∀ latest : LatestRow, latest.YIELD_CURVE = none →
      rule_yield_curve latest = (0, [])) ∧
    (∀ latest : LatestRow, latest.DGS10 = none → rule_dgs10 latest = (0, [])) ∧
    (∀ latest : LatestRow, latest.HY_SPREAD = none →
      rule_hy_spread latest = (0, [])) ∧
    (∀ latest : LatestRow, latest.RATE_GAP = none →
      rule_rate_gap latest = (0, [])) ∧
    (∀ inp : RiskInput, inp.latest.YIELD_CURVE = none →
      inp.latest.DGS10 = none → inp.latest.HY_SPREAD = none →
      inp.latest.RATE_GAP = none →
      (assess_macro_risk inp).score =
        (rule_cc_delinq inp.hasCC inp.CC_DELINQ).1 +
        (rule_cre_delinq inp.hasCRE inp.CRE_DELINQ_ALL).1 +
        (rule_auto_delinq inp.hasAUTO inp.AUTO_DELINQ).1 ∧
      (assess_macro_risk inp).warnings =
        (rule_cc_delinq inp.hasCC inp.CC_DELINQ).2 ++
        (rule_cre_delinq inp.hasCRE inp.CRE_DELINQ_ALL).2 ++
        (rule_auto_delinq inp.hasAUTO inp.AUTO_DELINQ).2) := by
  refine ⟨?_, ?_, ?_, ?_, ?_⟩
  · intro latest h; simp [rule_yield_curve, nanLt, h]
  · intro latest h; simp [rule_dgs10, nanGt, h]
  · intro latest h; simp [rule_hy_spread, nanGt, h]
  · intro latest h; simp [rule_rate_gap, nanGt, h]
  · intro inp h1 h2 h3 h4
    constructor <;>
      simp [assess_macro_risk, ruleStep, rule_yield_curve, rule_dgs10,
        rule_hy_spread, rule_rate_gap, nanLt, nanGt, h1, h2, h3, h4]

/-- Witness for C10 at a concrete all-NaN latest row with concrete
delinquency histories. -/
theorem C10_nan_contributes_nothing_witness :
    rule_yield_curve { YIELD_CURVE := none, DGS10 := none, HY_SPREAD := none,
                       RATE_GAP := none } = (0, []) ∧
    (assess_macro_risk
      { latest := { YIELD_CURVE := none, DGS10 := none, HY_SPREAD := none,
                    RATE_GAP := none },
        hasCC := true, CC_DELINQ := [some 4], hasCRE := false,
        CRE_DELINQ_ALL := [], hasAUTO := true, AUTO_DELINQ := [some 1] }).score =
      (rule_cc_delinq true [some 4]).1 + (rule_cre_delinq false []).1 +
      (rule_auto_delinq true [some 1]).1 :=
  ⟨C10_nan_contributes_nothing.1 _ rfl,
   (C10_nan_contributes_nothing.2.2.2.2 _ rfl rfl rfl rfl).1⟩

/-- Forward-filling never changes the dates of a series. -/
lemma ffill_carry_map_fst (c : Option ℚ) (l : Series) :
    (ffill_carry c l).map Prod.fst = l.map Prod.fst := by
  induction l generalizing c with
  | nil => rfl
  | cons p rest ih =>
    obtain ⟨d, v⟩ := p
    cases v <;> simp [ffill_carry, ih]

/-- `sort_index` sorts the observations by date. -/
lemma sort_index_sorted (s : Series) :
    (sort_index s).Sorted (fun a b => a.1 ≤ b.1) := by
  haveI : IsTotal (ℕ × Option ℚ) (fun a b => a.1 ≤ b.1) :=
    ⟨fun a b => Nat.le_total a.1 b.1⟩
  haveI : IsTrans (ℕ × Option ℚ) (fun a b => a.1 ≤ b.1) :=
    ⟨fun _ _ _ hab hbc => le_trans hab hbc⟩
  exact List.sorted_insertionSort _ s

/-- The date column of `sort_ffill` output is non-decreasing. -/
lemma sort_ffill_dates_sorted (s : Series) :
    ((sort_ffill s).map Prod.fst).Sorted (· ≤ ·) := by
  unfold sort_ffill
  rw [ffill_carry_map_fst]
  exact (sort_index_sorted s).map _ (fun _ _ h => h)

/-- C7: `fetch_series_with_ffill` never propagates an exception outward: a
provider failure produces an empty series plus exactly one warning naming
the series, an empty provider result produces an empty series with no
warning, and a non-empty result is returned sorted by date and
forward-filled with no warning. -/
theorem C7_fetch_never_raises (series_id name : String)
    (fetched : Except String Series) :
    (∀ e, fetched = Except.error e →
      fetch_series_with_ffill series_id name fetched
        = ([], [fetch_warning series_id name e])) ∧
    (fetched = Except.ok [] →
      fetch_series_with_ffill series_id name fetched = ([], [])) ∧
    (∀ data, fetched = Except.ok data → data ≠ [] →
      fetch_series_with_ffill series_id name fetched = (sort_ffill data, []) ∧
      ((sort_ffill data).map Prod.fst).Sorted (· ≤ ·)) := by
  refine ⟨?_, ?_, ?_⟩
  · intro e he
    subst he
    rfl
  · intro he
    subst he
    rfl
  · intro data hd hne
    subst hd
    refine ⟨?_, sort_ffill_dates_sorted data⟩
    simp [fetch_series_with_ffill, List.length_pos.mpr hne]

/-- Witness for C7: a failing fetch of DGS10 yields the empty series and the
one warning; a successful out-of-order fetch is returned sorted and filled. -/
theorem C7_fetch_never_raises_witness :
    fetch_series_with_ffill "DGS10" "10년물 국채" (Except.error "HTTP 500")
      = ([], [fetch_warning "DGS10" "10년물 국채" "HTTP 500"]) ∧
    fetch_series_with_ffill "DGS10" "" (Except.ok [(2, some 1), (1, none)])
      = (sort_ffill [(2, some 1), (1, none)], []) :=
  ⟨(C7_fetch_never_raises "DGS10" "10년물 국채" _).1 "HTTP 500" rfl,
   ((C7_fetch_never_raises "DGS10" "" _).2.2 [(2, some 1), (1, none)] rfl
      (by simp)).1⟩

/-- C8: the authentication check as a state machine over the session flag.
An authenticated session short-circuits to `true` with nothing changed; an
unknown username (or absent credential mapping) reports the no-such-user
error and stays unauthenticated; a known username with a wrong password
reports the incorrect-password error, stays unauthenticated and leaves the
credential store untouched; a matching pair sets the session flag and
triggers a rerun. -/
theorem C8_auth_state_machine :
    (∀ secrets sub, check_password secrets true sub =
      { result := true, session := true, msg := none, rerun := false,
        store := secrets }) ∧
    (∀ ps u pw, lookup_pw ps u = none →
      check_password (some ps) false (some (u, pw)) =
        { result := false, session := false, msg := some AuthMsg.errNoUser,
          rerun := false, store := some ps }) ∧
    (∀ u pw, check_password none false (some (u, pw)) =
      { result := false, session := false, msg := some AuthMsg.errNoUser,
        rerun := false, store := none }) ∧
    (∀ ps u pw correct, lookup_pw ps u = some correct → pw ≠ correct →
      check_password (some ps) false (some (u, pw)) =
        { result := false, session := false,
          msg := some AuthMsg.errWrongPassword, rerun := false,
          store := some ps }) ∧
    (∀ ps u pw, lookup_pw ps u = some pw →
      check_password (some ps) false (some (u, pw)) =
        { result := false, session := true, msg := none, rerun := true,
          store := some ps }) := by
  refine ⟨fun secrets sub => rfl, ?_, fun u pw => rfl, ?_, ?_⟩
  · intro ps u pw h
    simp [check_password, h]
  · intro ps u pw correct h hne
    simp [check_password, h, hne]
  · intro ps u pw h
    simp [check_password, h]

/-- Witness for C8 on the concrete store `[("alice", "secret")]`: unknown
user, wrong password and matching submission behave as the state machine
prescribes. -/
theorem C8_auth_state_machine_witness :
    check_password (some [("alice", "secret")]) false (some ("bob", "x")) =
      { result := false, session := false, msg := some AuthMsg.errNoUser,
        rerun := false, store := some [("alice", "secret")] } ∧
    check_password (some [("alice", "secret")]) false (some ("alice", "wrong")) =
      { result := false, session := false, msg := some AuthMsg.errWrongPassword,
        rerun := false, store := some [("alice", "secret")] } ∧
    check_password (some [("alice", "secret")]) false (some ("alice", "secret")) =
      { result := false, session := true, msg := none, rerun := true,
        store := some [("alice", "secret")] } ∧
    check_password (some [("alice", "secret")]) true none =
      { result := true, session := true, msg := none, rerun := false,
        store := some [("alice", "secret")] } :=
  ⟨C8_auth_state_machine.2.1 [("alice", "secret")] "bob" "x" rfl,
   C8_auth_state_machine.2.2.2.1 [("alice", "secret")] "alice" "wrong" "secret"
     rfl (by decide),
   C8_auth_state_machine.2.2.2.2 [("alice", "secret")] "alice" "secret" rfl,
   C8_auth_state_machine.1 (some [("alice", "secret")]) none⟩

/-- C9: the cached batch fetch.  A second invocation with the identical start
date within the 3600-second window returns the identical result and makes no
provider call; more generally any fresh cache hit answers from the cache
without recomputation. -/
theorem C9_batch_fetch_cached (provider : String → ℕ → Except String Series)
    (c : List (ℕ × (SeriesName → Series) × ℕ)) (start t0 t1 : ℕ) :
    (cache_find c start t0 = none → t0 ≤ t1 → t1 < t0 + 3600 →
      (cached_call (load_all_series provider)
          ((cached_call (load_all_series provider) c start t0).2.1) start t1).1
        = (cached_call (load_all_series provider) c start t0).1 ∧
      (cached_call (load_all_series provider)
          ((cached_call (load_all_series provider) c start t0).2.1) start t1).2.2
        = 0) ∧
    (∀ v, cache_find c start t0 = some v →
      cached_call (load_all_series provider) c start t0 = (v, c, 0)) := by
  constructor
  · intro hmiss hle hlt
    have h1 : cached_call (load_all_series provider) c start t0
        = (load_all_series provider start,
           (start, load_all_series provider start, t0) :: c, 1) := by
      simp [cached_call, hmiss]
    have h2 : cache_find ((start, load_all_series provider start, t0) :: c)
        start t1 = some (load_all_series provider start) := by
      simp [cache_find, List.find?, hlt]
    rw [h1]
    constructor <;> simp [cached_call, h2]
  · intro v hhit
    simp [cached_call, hhit]

/-- Witness for C9 with an empty cache, a failing provider, start date 7 and
call times 100 and 3000. -/
theorem C9_batch_fetch_cached_witness :
    (cached_call (load_all_series (fun _ _ => Except.error "down"))
        ((cached_call (load_all_series (fun _ _ => Except.error "down"))
          [] 7 100).2.1) 7 3000).1
      = (cached_call (load_all_series (fun _ _ => Except.error "down"))
          [] 7 100).1 ∧
    (cached_call (load_all_series (fun _ _ => Except.error "down"))
        ((cached_call (load_all_series (fun _ _ => Except.error "down"))
          [] 7 100).2.1) 7 3000).2.2
      = 0 :=
  (C9_batch_fetch_cached (fun _ _ => Except.error "down") [] 7 100 3000).1
    rfl (by decide) (by decide)

/-- C6: `extract_section` returns a no-value result exactly when the marker
is absent; when the marker occurs it returns some (stripped, fence-free)
section; on the spec's example text, extracting MARKET_STATUS yields
exactly "A." while an absent marker yields none. -/
theorem C6_extract_section :
    extract_section "MARKET_STATUS: A. KEY_RISKS: B. STRATEGY: C.".data
      "MARKET_STATUS:".data = some "A.".data ∧
    extract_section "MARKET_STATUS: A. KEY_RISKS: B. STRATEGY: C.".data
      "FULL_ANALYSIS:".data = none ∧
    (∀ text marker : PyText, find_from text marker 0 = none →
      extract_section text marker = none) ∧
    (∀ text marker : PyText, (find_from text marker 0).isSome →
      (extract_section text marker).isSome) := by
  refine ⟨by decide, by decide, ?_, ?_⟩
  · intro text marker h
    simp [extract_section, h]
  · intro text marker h
    obtain ⟨i, hi⟩ := Option.isSome_iff_exists.mp h
    simp [extract_section, hi]

/-- Witness for C6: the absence and presence clauses applied at concrete
texts and markers. -/
theorem C6_extract_section_witness :
    extract_section "no markers here".data "KEY_RISKS:".data = none ∧
    (extract_section "KEY_RISKS: x".data "KEY_RISKS:".data).isSome :=
  ⟨C6_extract_section.2.2.1 "no markers here".data "KEY_RISKS:".data (by decide),
   C6_extract_section.2.2.2 "KEY_RISKS: x".data "KEY_RISKS:".data (by decide)⟩

/-- The scan invariant weakens as the bound grows. -/
lemma invState_mono {lb lb' : ℕ} {st : List (ℕ × ℕ) × Bool × ℕ}
    (h : InvState lb st) (hle : lb ≤ lb') : InvState lb' st := by
  obtain ⟨h1, h2, h3, h4⟩ := h
  exact ⟨h1, h2, fun hf => ⟨(h3 hf).1, lt_of_lt_of_le (h3 hf).2 hle⟩,
    fun hf p hp => lt_of_lt_of_le (h4 hf p hp) hle⟩

/-- One scan step at a date `d ≥ lb` preserves the invariant with bound
`d + 1`. -/
lemma invState_step {lb d : ℕ} {v : Option ℚ} {st : List (ℕ × ℕ) × Bool × ℕ}
    (h : InvState lb st) (hd : lb ≤ d) :
    InvState (d + 1) (inv_step st (d, v)) := by
  obtain ⟨acc, flag, start⟩ := st
  obtain ⟨h1, h2, h3, h4⟩ := h
  cases v with
  | none => exact invState_mono ⟨h1, h2, h3, h4⟩ (by omega)
  | some val =>
    simp only [inv_step]
    split_ifs with hc1 hc2
    · obtain ⟨hval, hflag⟩ := hc1
      refine ⟨h1, h2, fun _ => ⟨fun p hp => ?_, Nat.lt_succ_self d⟩, by simp⟩
      exact lt_of_lt_of_le (h4 hflag p hp) hd
    · obtain ⟨hval, hflag⟩ := hc2
      obtain ⟨hends, hstart⟩ := h3 hflag
      have hale : ∀ p ∈ acc, p.2 < start := hends
      have hsl : start < lb := hstart
      refine ⟨?_, ?_, by simp, fun _ p hp => ?_⟩
      · rw [List.chain'_append]
        refine ⟨h1, List.chain'_singleton _, fun x hx y hy => ?_⟩
        simp only [List.head?_cons, Option.mem_def, Option.some.injEq] at hy
        subst hy
        exact hale x (List.mem_of_mem_getLast? hx)
      · intro p hp
        rcases List.mem_append.mp hp with hmem | hmem
        · exact h2 p hmem
        · simp only [List.mem_singleton] at hmem
          subst hmem
          show start ≤ d
          omega
      · show p.2 < d + 1
        rcases List.mem_append.mp hp with hmem | hmem
        · have := hale p hmem
          omega
        · simp only [List.mem_singleton] at hmem
          subst hmem
          show d < d + 1
          omega
    · exact invState_mono ⟨h1, h2, h3, h4⟩ (by omega)

/-- Folding the scan over a strictly date-increasing series preserves the
invariant up to any bound exceeding every date. -/
lemma invState_foldl (l : Series) :
    ∀ (st : List (ℕ × ℕ) × Bool × ℕ) (lb : ℕ), InvState lb st →
    (∀ p ∈ l, lb ≤ p.1) → l.Pairwise (fun p q => p.1 < q.1) →
    ∀ M, lb ≤ M → (∀ p ∈ l, p.1 < M) →
    InvState M (l.foldl inv_step st) := by
  induction l with
  | nil =>
    intro st lb h _ _ M hle _
    exact invState_mono h hle
  | cons p rest ih =>
    intro st lb h hlb hpw M hle hM
    simp only [List.foldl_cons]
    obtain ⟨hpw1, hpw2⟩ := List.pairwise_cons.mp hpw
    refine ih (inv_step st p) (p.1 + 1) ?_ ?_ hpw2 M ?_ ?_
    · obtain ⟨d, v⟩ := p
      exact invState_step h (hlb _ (List.mem_cons_self _ _))
    · exact fun q hq => hpw1 q hq
    · have := hM p (List.mem_cons_self _ _)
      omega
    · exact fun q hq => hM q (List.mem_cons.mpr (Or.inr hq))

/-- In a strictly date-increasing series the last observation carries the
largest date. -/
lemma pairwise_last_max :
    ∀ (s : Series) (q : ℕ × Option ℚ),
      s.Pairwise (fun p r => p.1 < r.1) → s.getLast? = some q →
      ∀ p ∈ s, p.1 ≤ q.1
  | [], q, _, hq => by simp at hq
  | [a], q, _, hq => by
    intro p hp
    simp only [List.getLast?_singleton, Option.some.injEq] at hq
    simp only [List.mem_singleton] at hp
    subst hq; subst hp
    exact le_refl _
  | a :: b :: t, q, hpw, hq => by
    intro p hp
    rw [List.getLast?_cons_cons] at hq
    obtain ⟨hpw1, hpw2⟩ := List.pairwise_cons.mp hpw
    rcases List.mem_cons.mp hp with hmem | hmem
    · subst hmem
      exact le_of_lt (hpw1 q (List.mem_of_mem_getLast? hq))
    · exact pairwise_last_max (b :: t) q hpw2 hq p hmem

/-- C4: inversion detection on the spec's sequence [0.5, −0.1, −0.2, 0.3,
−0.05] over dates 1..5 returns exactly (2, 4) and (5, 5); and on every
strictly date-increasing series the returned intervals are chronologically
ordered (each interval ends strictly before the next begins) and
well-formed (start ≤ end). -/
theorem C4_find_inversion_periods :
    find_inversion_periods
        [(1, some 0.5), (2, some (-0.1)), (3, some (-0.2)), (4, some 0.3),
         (5, some (-0.05))] = [(2, 4), (5, 5)] ∧
    (∀ s : Series, s.Pairwise (fun p q => p.1 < q.1) →
      (find_inversion_periods s).Chain' (fun a b => a.2 < b.1) ∧
      ∀ p ∈ find_inversion_periods s, p.1 ≤ p.2) := by
  constructor
  · norm_num [find_inversion_periods, inv_step, List.foldl]
  intro s hpw
  cases hs : s.getLast? with
  | none =>
    rw [List.getLast?_eq_none_iff] at hs
    subst hs
    exact ⟨List.chain'_nil, by simp [find_inversion_periods]⟩
  | some q =>
    have hmax := pairwise_last_max s q hpw hs
    have hinv := invState_foldl s ([], false, 0) 0
      ⟨List.chain'_nil, by simp, by simp, by simp⟩
      (fun _ _ => Nat.zero_le _) hpw (q.1 + 1) (Nat.zero_le _)
      (fun p hp => Nat.lt_succ_of_le (hmax p hp))
    unfold find_inversion_periods
    obtain ⟨h1, h2, h3, h4⟩ := hinv
    by_cases hflag : (s.foldl inv_step ([], false, 0)).2.1
    · simp only [hflag, if_true, hs]
      obtain ⟨hends, hstart⟩ := h3 hflag
      constructor
      · rw [List.chain'_append]
        refine ⟨h1, List.chain'_singleton _, fun x hx y hy => ?_⟩
        simp only [List.head?_cons, Option.mem_def, Option.some.injEq] at hy
        subst hy
        exact hends x (List.mem_of_mem_getLast? hx)
      · intro p hp
        rcases List.mem_append.mp hp with hmem | hmem
        · exact h2 p hmem
        · simp only [List.mem_singleton] at hmem
          subst hmem
          simpa using Nat.lt_succ_iff.mp hstart
    · simp only [Bool.not_eq_true] at hflag
      simp only [hflag, if_false]
      exact ⟨h1, h2⟩

/-- Witness for C4: the ordering clause applied to the spec's concrete
five-observation series. -/
theorem C4_find_inversion_periods_witness :
    (find_inversion_periods
        [(1, some 0.5), (2, some (-0.1)), (3, some (-0.2)), (4, some 0.3),
         (5, some (-0.05))]).Chain' (fun a b => a.2 < b.1) ∧
    (∀ p ∈ find_inversion_periods
        [(1, some 0.5), (2, some (-0.1)), (3, some (-0.2)), (4, some 0.3),
         (5, some (-0.05))], p.1 ≤ p.2) :=
  C4_find_inversion_periods.2 _ (by norm_num [List.pairwise_cons])

/-- When the base series has no duplicate dates, a date surviving the
`dropna` filter has a present value under exact-label lookup. -/
lemma atDate_isSome_of_mem (base : Series) (d : ℕ)
    (hnd : (base.map Prod.fst).Nodup)
    (hm : d ∈ (base.filter (fun p => p.2.isSome)).map Prod.fst) :
    (atDate base d).isSome := by
  simp only [List.mem_map, List.mem_filter] at hm
  obtain ⟨p, ⟨hpmem, hps⟩, hpd⟩ := hm
  have hsome : (base.find? (fun q => q.1 = d)).isSome := by
    rw [List.find?_isSome]
    exact ⟨p, hpmem, by simp [hpd]⟩
  obtain ⟨q, hq⟩ := Option.isSome_iff_exists.mp hsome
  have hqd : q.1 = d := by simpa using List.find?_some hq
  have hqmem : q ∈ base := List.mem_of_find?_eq_some hq
  have hqp : q = p := List.inj_on_of_nodup_map hnd hqmem hpmem (by rw [hqd, hpd])
  simp [atDate, hq, hqp, hps]

/-- C5: in `build_master_df` (for a base 10-year series without duplicate
dates) the coalesced yield-curve column equals the directly-reported spread
where present and the locally computed 10y−2y difference where absent; the
surviving rows are exactly the base dates with a present 10-year value, so
every remaining row has a present 10-year cell; every remaining row has a
present yield-curve value whenever the direct spread or the 2-year cell is
present on that date; and the coalescing fill changes no column other than
YIELD_CURVE. -/
theorem C5_master_dataset (S : SeriesName → Series)
    (hnd : ((S SeriesName.DGS10).map Prod.fst).Nodup) :
    (∀ d, master_col S ColName.YIELD_CURVE d =
      ((master_col S ColName.YIELD_CURVE_DIRECT d).orElse
        (fun _ => master_col S ColName.YIELD_CURVE_CALC d))) ∧
    (∀ d v, master_col S ColName.YIELD_CURVE_DIRECT d = some v →
      master_col S ColName.YIELD_CURVE d = some v) ∧
    (∀ d, master_col S ColName.YIELD_CURVE_DIRECT d = none →
      master_col S ColName.YIELD_CURVE d
        = master_col S ColName.YIELD_CURVE_CALC d) ∧
    (∀ d, d ∈ master_index S ↔
      ∃ p ∈ S SeriesName.DGS10, p.1 = d ∧ p.2.isSome) ∧
    (∀ d, d ∈ master_index S →
      (master_col S (ColName.raw SeriesName.DGS10) d).isSome) ∧
    (∀ d, d ∈ master_index S →
      ((master_col S ColName.YIELD_CURVE_DIRECT d).isSome ∨
        (master_col S (ColName.raw SeriesName.DGS2) d).isSome) →
      (master_col S ColName.YIELD_CURVE d).isSome) ∧
    (∀ c d, c ≠ ColName.YIELD_CURVE →
      master_col_nofill S c d = master_col S c d) := by
  have hb : ∀ d, d ∈ master_index S →
      (master_col S (ColName.raw SeriesName.DGS10) d).isSome := by
    intro d hd
    have : (atDate (S SeriesName.DGS10) d).isSome :=
      atDate_isSome_of_mem _ _ hnd hd
    simpa [master_col, col_raw] using this
  refine ⟨fun d => rfl, ?_, ?_, ?_, hb, ?_, ?_⟩
  · intro d v h
    simp only [master_col] at h ⊢
    rw [h]
    rfl
  · intro d h
    simp only [master_col] at h ⊢
    rw [h]
    rfl
  · intro d
    simp only [master_index, List.mem_map, List.mem_filter]
    constructor
    · rintro ⟨p, ⟨hm, hs⟩, hd⟩
      exact ⟨p, hm, hd, hs⟩
    · rintro ⟨p, hm, hd, hs⟩
      exact ⟨p, ⟨hm, hs⟩, hd⟩
  · intro d hd hsrc
    rcases hsrc with hdir | hdgs2
    · obtain ⟨v, hv⟩ := Option.isSome_iff_exists.mp hdir
      simp only [master_col] at hv ⊢
      rw [hv]
      rfl
    · cases hdir : master_col S ColName.YIELD_CURVE_DIRECT d with
      | some v =>
        simp only [master_col] at hdir ⊢
        rw [hdir]
        rfl
      | none =>
        have h10 := hb d hd
        simp only [master_col] at hdir ⊢
        rw [hdir]
        obtain ⟨a, ha⟩ := Option.isSome_iff_exists.mp h10
        obtain ⟨b, hbb⟩ := Option.isSome_iff_exists.mp hdgs2
        simp only [master_col] at ha hbb
        simp [Option.orElse, ha, hbb, osub]
  · intro c d hc
    cases c with
    | raw n => rfl
    | YIELD_CURVE_DIRECT => rfl
    | YIELD_CURVE_CALC => rfl
    | YIELD_CURVE => exact absurd rfl hc
    | RATE_GAP => rfl
    | POLICY_SPREAD => rfl

/-- Witness for C5 on the concrete three-series dict whose direct spread is
absent exactly on date 2: the coalesced column falls back to the calculated
difference there, stays present, and the fill leaves RATE_GAP untouched. -/
theorem C5_master_dataset_witness :
    master_col exampleSeriesDict ColName.YIELD_CURVE 2
      = master_col exampleSeriesDict ColName.YIELD_CURVE_CALC 2 ∧
    (master_col exampleSeriesDict ColName.YIELD_CURVE 2).isSome ∧
    master_col_nofill exampleSeriesDict ColName.RATE_GAP 2
      = master_col exampleSeriesDict ColName.RATE_GAP 2 :=
  ⟨(C5_master_dataset exampleSeriesDict (by decide)).2.2.1 2 (by decide),
   (C5_master_dataset exampleSeriesDict (by decide)).2.2.2.2.2.1 2 (by decide)
     (Or.inr (by decide)),
   (C5_master_dataset exampleSeriesDict (by decide)).2.2.2.2.2.2
     ColName.RATE_GAP 2 (by decide)⟩


